import Mathlib

/-!
Verification of the crop-geometry engine of `src/src/pages/Index.tsx`
(point-pixel-pivot).

The component `ImageDimensionsPicker` keeps a focal point and derives the
left offsets of two crop windows (mobile and tablet) from it.  The three
functions embedded below are `getMobileContainerPosition`,
`getTabletContainerPosition` and `handleDragEnd`.  JavaScript numbers are
modelled as rationals; the arithmetic involved is addition, subtraction,
halving, `Math.min` and `Math.max`.
-/

/-- container-local 2-D point, field names as in the `Position` interface. -/
structure Position where
  x : ℚ
  y : ℚ
deriving DecidableEq, Repr

/-- the `Dimensions` interface of the source. -/
structure Dimensions where
  width : ℚ
  height : ℚ
deriving DecidableEq, Repr

/-- The configuration captured by the `ImageDimensionsPicker` component:
its `containerDimensions`, `mobileWidth` and `tabletWidth` props. -/
structure PickerConfig where
  containerDimensions : Dimensions
  mobileWidth : ℚ
  tabletWidth : ℚ
deriving DecidableEq, Repr

/-- The instantiation used by `Index.tsx` (also the prop defaults):
container 800 x 400, mobile width 200, tablet width 400. -/
def defaultConfig : PickerConfig :=
  { containerDimensions := { width := 800, height := 400 }
    mobileWidth := 200
    tabletWidth := 400 }

/-- A deliberately misconfigured instantiation (both window widths larger
than the container) used to exercise the defensive clamp-to-zero path. -/
def degenerateConfig : PickerConfig :=
  { containerDimensions := { width := 100, height := 50 }
    mobileWidth := 200
    tabletWidth := 300 }

/-- `getMobileContainerPosition` of `ImageDimensionsPicker`:
`mobileLeft = focalX - mobileWidth / 2` clamped by
`Math.max(0, Math.min(mobileLeft, containerDimensions.width - mobileWidth))`. -/
def getMobileContainerPosition (cfg : PickerConfig) (focalX : ℚ) : ℚ :=
  let halfMobileWidth := cfg.mobileWidth / 2
  let mobileLeft := focalX - halfMobileWidth
  max 0 (min mobileLeft (cfg.containerDimensions.width - cfg.mobileWidth))

/-- `getTabletContainerPosition` of `ImageDimensionsPicker`:
`tabletLeft = focalX - tabletWidth / 2` clamped by
`Math.max(0, Math.min(tabletLeft, containerDimensions.width - tabletWidth))`. -/
def getTabletContainerPosition (cfg : PickerConfig) (focalX : ℚ) : ℚ :=
  let halfTabletWidth := cfg.tabletWidth / 2
  let tabletLeft := focalX - halfTabletWidth
  max 0 (min tabletLeft (cfg.containerDimensions.width - cfg.tabletWidth))

/-- `handleDragEnd` of `ImageDimensionsPicker`: clamp each axis of
`focalPoint + delta` to the container, then, unless the tablet window
computed from the provisional X sits at a boundary, re-snap the focal X to
the center of the mobile window. -/
def handleDragEnd (cfg : PickerConfig) (focalPoint delta : Position) : Position :=
  let newX := max 0 (min (focalPoint.x + delta.x) cfg.containerDimensions.width)
  let newY := max 0 (min (focalPoint.y + delta.y) cfg.containerDimensions.height)
  let newTabletLeft := getTabletContainerPosition cfg newX
  let isTabletAtLeftBoundary : Prop := newTabletLeft = 0
  let isTabletAtRightBoundary : Prop :=
    newTabletLeft = cfg.containerDimensions.width - cfg.tabletWidth
  let finalX :=
    if ¬ isTabletAtLeftBoundary ∧ ¬ isTabletAtRightBoundary then
      getMobileContainerPosition cfg newX + cfg.mobileWidth / 2
    else
      newX
  { x := finalX, y := newY }

/-- Spec-side comparator for the refinement claim: the simpler update that
just clamps each axis independently to the container, with no tablet
boundary check and no mobile-center re-snap. -/
def applyDragSimple (cfg : PickerConfig) (focalPoint delta : Position) : Position :=
  { x := max 0 (min (focalPoint.x + delta.x) cfg.containerDimensions.width)
    y := max 0 (min (focalPoint.y + delta.y) cfg.containerDimensions.height) }

/-! ## Helper lemmas on the clamp pattern -/

/-- the clamp `max 0 (min v hi)` lands in `[0, hi]` whenever `0 ≤ hi`. -/
lemma clamp_mem (v hi : ℚ) (h : 0 ≤ hi) :
    0 ≤ max 0 (min v hi) ∧ max 0 (min v hi) ≤ hi :=
  ⟨le_max_left 0 _, max_le h (min_le_right v hi)⟩

/-- the clamp `max 0 (min v hi)` is `0` whenever `hi < 0`. -/
lemma clamp_neg (v hi : ℚ) (h : hi < 0) : max 0 (min v hi) = 0 :=
  max_eq_left (le_of_lt (lt_of_le_of_lt (min_le_right v hi) h))

/-- if the clamp `max 0 (min v hi)` avoids both `0` and `hi`, the raw value
is strictly inside `(0, hi)` and the clamp is the identity on it. -/
lemma clamp_interior (v hi : ℚ) (h0 : max 0 (min v hi) ≠ 0)
    (h1 : max 0 (min v hi) ≠ hi) : 0 < v ∧ v < hi ∧ max 0 (min v hi) = v := by
  rcases le_or_lt (min v hi) 0 with hm | hm
  · exact absurd (max_eq_left hm) h0
  · have hmax : max 0 (min v hi) = min v hi := max_eq_right (le_of_lt hm)
    rcases le_total v hi with hv | hv
    · have hmin : min v hi = v := min_eq_left hv
      refine ⟨by rw [hmin] at hm; exact hm, ?_, by rw [hmax, hmin]⟩
      rcases lt_or_eq_of_le hv with hlt | heq
      · exact hlt
      · exact absurd (by rw [hmax, hmin, heq]) h1
    · have hmin : min v hi = hi := min_eq_right hv
      exact absurd (by rw [hmax, hmin]) h1

/-- when the tablet window is strictly interior at `n`, the focal X `n` is
already the center of the mobile window at `n` (needs
`mobileWidth ≤ tabletWidth`). -/
lemma mobile_center_eq_of_tablet_interior (cfg : PickerConfig) (n : ℚ)
    (hmt : cfg.mobileWidth ≤ cfg.tabletWidth)
    (h0 : getTabletContainerPosition cfg n ≠ 0)
    (h1 : getTabletContainerPosition cfg n ≠
      cfg.containerDimensions.width - cfg.tabletWidth) :
    getMobileContainerPosition cfg n + cfg.mobileWidth / 2 = n := by
  unfold getTabletContainerPosition at h0 h1
  obtain ⟨ha, hb, -⟩ := clamp_interior _ _ h0 h1
  have hlo : 0 ≤ n - cfg.mobileWidth / 2 := by linarith
  have hhi : n - cfg.mobileWidth / 2 ≤
      cfg.containerDimensions.width - cfg.mobileWidth := by linarith
  show max 0 (min (n - cfg.mobileWidth / 2)
    (cfg.containerDimensions.width - cfg.mobileWidth)) + cfg.mobileWidth / 2 = n
  rw [min_eq_left hhi, max_eq_right hlo]
  ring

/-- `handleDragEnd` always commits the independently clamped provisional
point, as long as `mobileWidth ≤ tabletWidth`: the re-snap branch is the
identity whenever it is taken. -/
lemma handleDragEnd_eq_simple (cfg : PickerConfig) (p d : Position)
    (hmt : cfg.mobileWidth ≤ cfg.tabletWidth) :
    handleDragEnd cfg p d = applyDragSimple cfg p d := by
  unfold handleDragEnd applyDragSimple
  simp only
  split
  · next h =>
    rw [mobile_center_eq_of_tablet_interior cfg _ hmt h.1 h.2]
  · rfl

/-- a zero delta leaves an in-bounds focal point unchanged. -/
lemma zero_delta_fixed (cfg : PickerConfig) (p : Position)
    (hmt : cfg.mobileWidth ≤ cfg.tabletWidth)
    (hx0 : 0 ≤ p.x) (hx1 : p.x ≤ cfg.containerDimensions.width)
    (hy0 : 0 ≤ p.y) (hy1 : p.y ≤ cfg.containerDimensions.height) :
    handleDragEnd cfg p { x := 0, y := 0 } = p := by
  rw [handleDragEnd_eq_simple cfg p _ hmt]
  have hx : max 0 (min (p.x + 0) cfg.containerDimensions.width) = p.x := by
    rw [add_zero, min_eq_left hx1, max_eq_right hx0]
  have hy : max 0 (min (p.y + 0) cfg.containerDimensions.height) = p.y := by
    rw [add_zero, min_eq_left hy1, max_eq_right hy0]
  show Position.mk _ _ = p
  rw [hx, hy]

/-! ## Claim theorems -/

/-- Claim C1: for every focal X, if the window width is at most the container
width, each windowLeft operation returns `focalX - windowWidth/2` clamped to
`[0, containerWidth - windowWidth]`, so its result always lies in that
interval. -/
theorem windowLeft_clamped (cfg : PickerConfig) (focalX : ℚ)
    (hm : cfg.mobileWidth ≤ cfg.containerDimensions.width)
    (ht : cfg.tabletWidth ≤ cfg.containerDimensions.width) :
    (getMobileContainerPosition cfg focalX =
        max 0 (min (focalX - cfg.mobileWidth / 2)
          (cfg.containerDimensions.width - cfg.mobileWidth)) ∧
      0 ≤ getMobileContainerPosition cfg focalX ∧
      getMobileContainerPosition cfg focalX ≤
        cfg.containerDimensions.width - cfg.mobileWidth) ∧
    (getTabletContainerPosition cfg focalX =
        max 0 (min (focalX - cfg.tabletWidth / 2)
          (cfg.containerDimensions.width - cfg.tabletWidth)) ∧
      0 ≤ getTabletContainerPosition cfg focalX ∧
      getTabletContainerPosition cfg focalX ≤
        cfg.containerDimensions.width - cfg.tabletWidth) := by
  obtain ⟨hm1, hm2⟩ := clamp_mem (focalX - cfg.mobileWidth / 2)
    (cfg.containerDimensions.width - cfg.mobileWidth) (by linarith)
  obtain ⟨ht1, ht2⟩ := clamp_mem (focalX - cfg.tabletWidth / 2)
    (cfg.containerDimensions.width - cfg.tabletWidth) (by linarith)
  exact ⟨⟨rfl, hm1, hm2⟩, ⟨rfl, ht1, ht2⟩⟩

theorem windowLeft_clamped_witness :
    defaultConfig.mobileWidth ≤ defaultConfig.containerDimensions.width ∧
    defaultConfig.tabletWidth ≤ defaultConfig.containerDimensions.width ∧
    (0 ≤ getMobileContainerPosition defaultConfig 123 ∧
      getMobileContainerPosition defaultConfig 123 ≤
        defaultConfig.containerDimensions.width - defaultConfig.mobileWidth) :=
  ⟨by decide, by decide,
    (windowLeft_clamped defaultConfig 123 (by decide) (by decide)).1.2⟩

/-- Claim C9: for every focal X, if the window width exceeds the container
width, each windowLeft operation returns exactly 0, because the
`Math.max(0, Math.min(..))` ordering maps everything through the negative
upper bound to 0. -/
theorem windowLeft_degenerate_zero (cfg : PickerConfig) (focalX : ℚ)
    (hm : cfg.containerDimensions.width < cfg.mobileWidth)
    (ht : cfg.containerDimensions.width < cfg.tabletWidth) :
    getMobileContainerPosition cfg focalX = 0 ∧
    getTabletContainerPosition cfg focalX = 0 :=
  ⟨clamp_neg _ _ (by linarith), clamp_neg _ _ (by linarith)⟩

theorem windowLeft_degenerate_zero_witness :
    degenerateConfig.containerDimensions.width < degenerateConfig.mobileWidth ∧
    degenerateConfig.containerDimensions.width < degenerateConfig.tabletWidth ∧
    (getMobileContainerPosition degenerateConfig 42 = 0 ∧
      getTabletContainerPosition degenerateConfig 42 = 0) :=
  ⟨by decide, by decide,
    windowLeft_degenerate_zero degenerateConfig 42 (by decide) (by decide)⟩

/-- Claim C10: nesting invariant: for every focal X, given
`0 < mobileWidth ≤ tabletWidth ≤ containerWidth`, the mobile window derived
from that focal X lies inside the tablet window derived from the same focal
X: `tabletLeft ≤ mobileLeft` and
`mobileLeft + mobileWidth ≤ tabletLeft + tabletWidth`. -/
theorem mobile_nested_in_tablet (cfg : PickerConfig) (focalX : ℚ)
    (hm0 : 0 < cfg.mobileWidth)
    (hmt : cfg.mobileWidth ≤ cfg.tabletWidth)
    (htW : cfg.tabletWidth ≤ cfg.containerDimensions.width) :
    getTabletContainerPosition cfg focalX ≤ getMobileContainerPosition cfg focalX ∧
    getMobileContainerPosition cfg focalX + cfg.mobileWidth ≤
      getTabletContainerPosition cfg focalX + cfg.tabletWidth := by
  constructor
  · show max 0 (min (focalX - cfg.tabletWidth / 2)
        (cfg.containerDimensions.width - cfg.tabletWidth)) ≤
      max 0 (min (focalX - cfg.mobileWidth / 2)
        (cfg.containerDimensions.width - cfg.mobileWidth))
    exact max_le_max le_rfl (min_le_min (by linarith) (by linarith))
  · show max 0 (min (focalX - cfg.mobileWidth / 2)
        (cfg.containerDimensions.width - cfg.mobileWidth)) + cfg.mobileWidth ≤
      max 0 (min (focalX - cfg.tabletWidth / 2)
        (cfg.containerDimensions.width - cfg.tabletWidth)) + cfg.tabletWidth
    rcases le_total (min (focalX - cfg.tabletWidth / 2)
        (cfg.containerDimensions.width - cfg.tabletWidth)) 0 with h | h
    · rw [max_eq_left h]
      rcases min_le_iff.mp h with h2 | h2
      · have h3 : max 0 (min (focalX - cfg.mobileWidth / 2)
            (cfg.containerDimensions.width - cfg.mobileWidth)) ≤
            max 0 (focalX - cfg.mobileWidth / 2) :=
          max_le_max le_rfl (min_le_left _ _)
        have h4 : max 0 (focalX - cfg.mobileWidth / 2) ≤
            cfg.tabletWidth - cfg.mobileWidth :=
          max_le (by linarith) (by linarith)
        linarith
      · have h4 : max 0 (min (focalX - cfg.mobileWidth / 2)
            (cfg.containerDimensions.width - cfg.mobileWidth)) ≤
            cfg.containerDimensions.width - cfg.mobileWidth :=
          max_le (by linarith) (min_le_right _ _)
        linarith
    · rw [max_eq_right h]
      obtain ⟨h5, h6⟩ := le_min_iff.mp h
      have h7 : max 0 (min (focalX - cfg.mobileWidth / 2)
          (cfg.containerDimensions.width - cfg.mobileWidth)) ≤
          focalX - cfg.mobileWidth / 2 :=
        max_le (by linarith) (min_le_left _ _)
      have h8 : max 0 (min (focalX - cfg.mobileWidth / 2)
          (cfg.containerDimensions.width - cfg.mobileWidth)) ≤
          cfg.containerDimensions.width - cfg.mobileWidth :=
        max_le (by linarith) (min_le_right _ _)
      have h9 := le_min
        (show max 0 (min (focalX - cfg.mobileWidth / 2)
            (cfg.containerDimensions.width - cfg.mobileWidth)) +
            cfg.mobileWidth - cfg.tabletWidth ≤ focalX - cfg.tabletWidth / 2 by
          linarith)
        (show max 0 (min (focalX - cfg.mobileWidth / 2)
            (cfg.containerDimensions.width - cfg.mobileWidth)) +
            cfg.mobileWidth - cfg.tabletWidth ≤
            cfg.containerDimensions.width - cfg.tabletWidth by linarith)
      linarith

/-- Claim C2: `handleDragEnd` commits the focal X by the tablet-boundary
tie-break: with `provisionalX = clamp(focal.x + delta.x, 0, containerWidth)`
and `tabletLeft = windowLeft(provisionalX, tabletWidth, containerWidth)`, if
`tabletLeft` is neither `0` nor `containerWidth - tabletWidth` the committed
X is `windowLeft(provisionalX, mobileWidth, containerWidth) + mobileWidth/2`,
otherwise it is `provisionalX` itself. -/
theorem handleDragEnd_tie_break (cfg : PickerConfig) (p d : Position) :
    (handleDragEnd cfg p d).x =
      if getTabletContainerPosition cfg
            (max 0 (min (p.x + d.x) cfg.containerDimensions.width)) ≠ 0 ∧
          getTabletContainerPosition cfg
            (max 0 (min (p.x + d.x) cfg.containerDimensions.width)) ≠
            cfg.containerDimensions.width - cfg.tabletWidth then
        getMobileContainerPosition cfg
          (max 0 (min (p.x + d.x) cfg.containerDimensions.width)) +
          cfg.mobileWidth / 2
      else
        max 0 (min (p.x + d.x) cfg.containerDimensions.width) := rfl

/-- Claim C3: for every in-bounds focal point and every drag delta, the
focal point committed by `handleDragEnd` is again in bounds, assuming the
configuration contract `0 < mobileWidth ≤ tabletWidth ≤ containerWidth`. -/
theorem handleDragEnd_preserves_bounds (cfg : PickerConfig) (p d : Position)
    (hm0 : 0 < cfg.mobileWidth)
    (hmt : cfg.mobileWidth ≤ cfg.tabletWidth)
    (htW : cfg.tabletWidth ≤ cfg.containerDimensions.width)
    (hx0 : 0 ≤ p.x) (hx1 : p.x ≤ cfg.containerDimensions.width)
    (hy0 : 0 ≤ p.y) (hy1 : p.y ≤ cfg.containerDimensions.height) :
    0 ≤ (handleDragEnd cfg p d).x ∧
    (handleDragEnd cfg p d).x ≤ cfg.containerDimensions.width ∧
    0 ≤ (handleDragEnd cfg p d).y ∧
    (handleDragEnd cfg p d).y ≤ cfg.containerDimensions.height := by
  rw [handleDragEnd_eq_simple cfg p d hmt]
  obtain ⟨a1, a2⟩ := clamp_mem (p.x + d.x) cfg.containerDimensions.width
    (le_trans hx0 hx1)
  obtain ⟨b1, b2⟩ := clamp_mem (p.y + d.y) cfg.containerDimensions.height
    (le_trans hy0 hy1)
  exact ⟨a1, a2, b1, b2⟩

theorem handleDragEnd_preserves_bounds_witness :
    (0 : ℚ) ≤ 400 ∧ (400 : ℚ) ≤ defaultConfig.containerDimensions.width ∧
    (0 ≤ (handleDragEnd defaultConfig ⟨400, 200⟩ ⟨10000, -10000⟩).x ∧
      (handleDragEnd defaultConfig ⟨400, 200⟩ ⟨10000, -10000⟩).x ≤
        defaultConfig.containerDimensions.width ∧
      0 ≤ (handleDragEnd defaultConfig ⟨400, 200⟩ ⟨10000, -10000⟩).y ∧
      (handleDragEnd defaultConfig ⟨400, 200⟩ ⟨10000, -10000⟩).y ≤
        defaultConfig.containerDimensions.height) :=
  ⟨by decide, by decide,
    handleDragEnd_preserves_bounds defaultConfig ⟨400, 200⟩ ⟨10000, -10000⟩
      (by decide) (by decide) (by decide) (by decide) (by decide)
      (by decide) (by decide)⟩

/-- Claim C4: centering invariant when unpinned: if the tablet left offset
derived from the committed focal point is strictly interior, the committed
focal X is the center of the mobile window derived from that same committed
focal point (configuration `0 < mobileWidth ≤ tabletWidth ≤ containerWidth`,
in-bounds starting focal point, arbitrary delta). -/
theorem centering_invariant_unpinned (cfg : PickerConfig) (p d : Position)
    (hm0 : 0 < cfg.mobileWidth)
    (hmt : cfg.mobileWidth ≤ cfg.tabletWidth)
    (htW : cfg.tabletWidth ≤ cfg.containerDimensions.width)
    (hx0 : 0 ≤ p.x) (hx1 : p.x ≤ cfg.containerDimensions.width)
    (hy0 : 0 ≤ p.y) (hy1 : p.y ≤ cfg.containerDimensions.height)
    (hint : 0 < getTabletContainerPosition cfg (handleDragEnd cfg p d).x ∧
      getTabletContainerPosition cfg (handleDragEnd cfg p d).x <
        cfg.containerDimensions.width - cfg.tabletWidth) :
    (handleDragEnd cfg p d).x =
      getMobileContainerPosition cfg (handleDragEnd cfg p d).x +
        cfg.mobileWidth / 2 :=
  (mobile_center_eq_of_tablet_interior cfg _ hmt hint.1.ne' hint.2.ne).symm

theorem centering_invariant_unpinned_witness :
    0 < getTabletContainerPosition defaultConfig
        (handleDragEnd defaultConfig ⟨400, 200⟩ ⟨0, 0⟩).x ∧
    (handleDragEnd defaultConfig ⟨400, 200⟩ ⟨0, 0⟩).x =
      getMobileContainerPosition defaultConfig
          (handleDragEnd defaultConfig ⟨400, 200⟩ ⟨0, 0⟩).x +
        defaultConfig.mobileWidth / 2 :=
  ⟨by norm_num [handleDragEnd, getTabletContainerPosition,
      getMobileContainerPosition, defaultConfig, max_def, min_def],
    centering_invariant_unpinned defaultConfig ⟨400, 200⟩ ⟨0, 0⟩
      (by decide) (by decide) (by decide) (by decide) (by decide)
      (by decide) (by decide)
      (by norm_num [handleDragEnd, getTabletContainerPosition,
        getMobileContainerPosition, defaultConfig, max_def, min_def])⟩

/-- Claim C5: under `0 < mobileWidth ≤ tabletWidth ≤ containerWidth` and for
every in-bounds focal point and delta, `handleDragEnd` is extensionally
equal to the simple per-axis clamp: the mobile-center re-snap branch never
changes the result. -/
theorem handleDragEnd_refines_simple_clamp (cfg : PickerConfig) (p d : Position)
    (hm0 : 0 < cfg.mobileWidth)
    (hmt : cfg.mobileWidth ≤ cfg.tabletWidth)
    (htW : cfg.tabletWidth ≤ cfg.containerDimensions.width)
    (hx0 : 0 ≤ p.x) (hx1 : p.x ≤ cfg.containerDimensions.width)
    (hy0 : 0 ≤ p.y) (hy1 : p.y ≤ cfg.containerDimensions.height) :
    handleDragEnd cfg p d = applyDragSimple cfg p d :=
  handleDragEnd_eq_simple cfg p d hmt

theorem handleDragEnd_refines_simple_clamp_witness :
    (0 : ℚ) < defaultConfig.mobileWidth ∧
    handleDragEnd defaultConfig ⟨400, 200⟩ ⟨37, -50⟩ =
      applyDragSimple defaultConfig ⟨400, 200⟩ ⟨37, -50⟩ :=
  ⟨by decide,
    handleDragEnd_refines_simple_clamp defaultConfig ⟨400, 200⟩ ⟨37, -50⟩
      (by decide) (by decide) (by decide) (by decide) (by decide)
      (by decide) (by decide)⟩

/-- Claim C6: idempotence of the zero delta: for every in-bounds focal
point, under `0 < mobileWidth ≤ tabletWidth ≤ containerWidth`, applying
`handleDragEnd` with delta `(0,0)` any number of times leaves the focal
point unchanged (the case `n = 1` is the single-application identity). -/
theorem zero_delta_iterate_id (cfg : PickerConfig) (p : Position) (n : ℕ)
    (hm0 : 0 < cfg.mobileWidth)
    (hmt : cfg.mobileWidth ≤ cfg.tabletWidth)
    (htW : cfg.tabletWidth ≤ cfg.containerDimensions.width)
    (hx0 : 0 ≤ p.x) (hx1 : p.x ≤ cfg.containerDimensions.width)
    (hy0 : 0 ≤ p.y) (hy1 : p.y ≤ cfg.containerDimensions.height) :
    (fun q => handleDragEnd cfg q { x := 0, y := 0 })^[n] p = p := by
  induction n with
  | zero => rfl
  | succ k ih =>
    rw [Function.iterate_succ_apply', ih]
    exact zero_delta_fixed cfg p hmt hx0 hx1 hy0 hy1

theorem zero_delta_iterate_id_witness :
    (0 : ℚ) < defaultConfig.mobileWidth ∧
    (fun q => handleDragEnd defaultConfig q { x := 0, y := 0 })^[3]
      { x := 400, y := 200 } = { x := 400, y := 200 } :=
  ⟨by decide,
    zero_delta_iterate_id defaultConfig ⟨400, 200⟩ 3
      (by decide) (by decide) (by decide) (by decide) (by decide)
      (by decide) (by decide)⟩

/-- Claim C7: `handleDragEnd` is not commutative in its deltas: there are
an in-bounds focal point and deltas `d1`, `d2` such that applying `d1` then
`d2` and applying `d2` then `d1` commit different focal points. -/
theorem handleDragEnd_not_commutative :
    ∃ p d1 d2 : Position,
      0 ≤ p.x ∧ p.x ≤ defaultConfig.containerDimensions.width ∧
      0 ≤ p.y ∧ p.y ≤ defaultConfig.containerDimensions.height ∧
      handleDragEnd defaultConfig (handleDragEnd defaultConfig p d1) d2 ≠
        handleDragEnd defaultConfig (handleDragEnd defaultConfig p d2) d1 := by
  refine ⟨⟨400, 200⟩, ⟨1000, 0⟩, ⟨-1000, 0⟩,
    by norm_num, by norm_num [defaultConfig], by norm_num,
    by norm_num [defaultConfig], ?_⟩
  norm_num [handleDragEnd, getTabletContainerPosition,
    getMobileContainerPosition, defaultConfig, max_def, min_def,
    Position.mk.injEq]

/-- Claim C8: concrete left-boundary scenario: with the default
configuration and focal point `(400, 200)`, a drag delta of `(-350, 0)`
gives provisional X `50`, tablet left offset `0` (left boundary), hence the
committed focal point is the unsnapped `(50, 200)`, and the mobile left
offset derived from it is `0`. -/
theorem left_boundary_scenario :
    max 0 (min ((400 : ℚ) + -350) defaultConfig.containerDimensions.width) = 50 ∧
    getTabletContainerPosition defaultConfig 50 = 0 ∧
    handleDragEnd defaultConfig ⟨400, 200⟩ ⟨-350, 0⟩ = ⟨50, 200⟩ ∧
    getMobileContainerPosition defaultConfig 50 = 0 := by
  norm_num [handleDragEnd, getTabletContainerPosition,
    getMobileContainerPosition, defaultConfig, max_def, min_def,
    Position.mk.injEq]

theorem mobile_nested_in_tablet_witness :
    (0 : ℚ) < defaultConfig.mobileWidth ∧
    (getTabletContainerPosition defaultConfig 400 ≤
        getMobileContainerPosition defaultConfig 400 ∧
      getMobileContainerPosition defaultConfig 400 + defaultConfig.mobileWidth ≤
        getTabletContainerPosition defaultConfig 400 + defaultConfig.tabletWidth) :=
  ⟨by decide,
    mobile_nested_in_tablet defaultConfig 400 (by decide) (by decide) (by decide)⟩
